import Mathlib

/-!
Shallow embedding of `src/pre/1/model.py` (the EasyOCR preprocessing model):
`normalizeMeanVariance` and `TritonPythonModel.execute`.

Modelling choices:
* A decoded numpy pixel array is `PixArray`: height, width, an optional
  channel count (`none` models a 2-D array, `some c` a 3-D H×W×C array),
  and a pixel accessor into ℚ (exact arithmetic stands in for float32).
* PIL (`Image.open`, `resize`) is library code outside the repository; it is
  abstracted as `PILEnv`: `decode` maps a buffer id to a decoded array
  (`none` = decode failure) and `sample` is the resampling kernel giving the
  pixel values of the resized image.  `resize` preserves the image mode,
  hence `resizeTo` preserves the channel count; `cv2.cvtColor GRAY2BGR`
  duplicates the single channel.
* numpy in-place broadcasting: `img -= v` with `v` of shape (3,) succeeds on
  a 3-D `img` exactly when its last axis has size 3; otherwise numpy raises,
  modelled by `PreError.broadcastError`.
* The Python dict `batch_out` holds only the requested keys; `d[k].append`
  on a missing key raises `KeyError`, modelled by `PreError.keyError`.
-/

namespace EasyOCRPre

/-- A decoded pixel array: `channels = none` models a 2-D (grayscale) array,
`channels = some c` a 3-D H×W×C array.  `pix y x c` reads a pixel (a 2-D
array is read with `c = 0`). -/
structure PixArray where
  h : Nat
  w : Nat
  channels : Option Nat
  pix : Nat → Nat → Nat → ℚ
deriving Inhabited

/-- `len(arr.shape)` of the array. -/
def PixArray.ndim (a : PixArray) : Nat :=
  if a.channels.isSome then 3 else 2

/-- Abstract PIL: decoding of buffer ids (`Image.open`; `none` = failure) and
the resampling kernel used by `pil_img.resize`. -/
structure PILEnv where
  decode : Nat → Option PixArray
  sample : PixArray → Nat → Nat → Nat → ℚ

/-- `np.array(pil_img.resize((2240, 1920)))`: a 1920×2240 array of the same
mode (channel count) as the source, with library-defined pixel values. -/
def resizeTo (env : PILEnv) (a : PixArray) : PixArray :=
  { h := 1920, w := 2240, channels := a.channels, pix := env.sample a }

/-- `cv2.cvtColor(img, cv2.COLOR_GRAY2BGR)` on a 2-D array: duplicate the
single channel into three. -/
def gray2bgr (a : PixArray) : PixArray :=
  { a with channels := some 3, pix := fun y x _ => a.pix y x 0 }

/-- The `mean` default of `normalizeMeanVariance`, indexed by channel. -/
def meanConst : Nat → ℚ
  | 0 => 0.485
  | 1 => 0.456
  | _ => 0.406

/-- The `variance` default of `normalizeMeanVariance`, indexed by channel. -/
def varianceConst : Nat → ℚ
  | 0 => 0.229
  | 1 => 0.224
  | _ => 0.225

/-- The errors `execute` can raise (Python `ValueError` / `KeyError` /
decode and broadcast failures), distinguished by kind. -/
inductive PreError where
  | missingInput (reqId : String)
  | missingOutput
  | invalidInputType
  | decodeError
  | keyError (name : String)
  | broadcastError
  | unsupportedChannels (n : Nat)
deriving DecidableEq

/-- `normalizeMeanVariance(in_img)`: copy to float32, then in-place subtract
`mean[c]*255` and divide by `variance[c]*255` per channel.  The in-place
broadcast against a shape-(3,) vector succeeds on the 3-D arrays this model
feeds it exactly when the last axis has size 3. -/
def normalizeMeanVariance (a : PixArray) : Except PreError PixArray :=
  match a.channels with
  | some 3 =>
    .ok { a with pix := fun y x c =>
      (a.pix y x c - meanConst c * 255) / (varianceConst c * 255) }
  | _ => .error .broadcastError

/-- A channel-first (C×H×W) float tensor, `val c y x`. -/
structure ChwTensor where
  c : Nat
  h : Nat
  w : Nat
  val : Nat → Nat → Nat → ℚ
deriving Inhabited

/-- `np.transpose(arr, (2, 0, 1))` on a 3-D H×W×C array. -/
def transpose201 (a : PixArray) : ChwTensor :=
  { c := a.channels.getD 0, h := a.h, w := a.w, val := fun c y x => a.pix y x c }

/-- The body of the per-image `if/elif/else` in `execute`: resize, then
normalize (expanding a grayscale array to 3 channels first); returns the
emitted `resized_image` and the transposed normalized tensor. -/
def processDecoded (env : PILEnv) (a : PixArray) :
    Except PreError (PixArray × ChwTensor) :=
  let resized := resizeTo env a
  if resized.ndim = 3 then
    (normalizeMeanVariance resized).map (fun n => (resized, transpose201 n))
  else if a.ndim = 2 then
    let r := gray2bgr resized
    (normalizeMeanVariance r).map (fun n => (r, transpose201 n))
  else
    .error (.unsupportedChannels a.ndim)

/-- `[w/2240, h/1920]` computed from the decoded array's first two
dimensions. -/
def scaleOf (a : PixArray) : ℚ × ℚ :=
  ((a.w : ℚ) / 2240, (a.h : ℚ) / 1920)

/-- The `batch_out` dict: each key is present (`some`) exactly when the
corresponding output name was requested. -/
structure BatchOut where
  output : Option (List ChwTensor)
  image : Option (List PixArray)
  scale : Option (List (ℚ × ℚ))

/-- `batch_out['output'].append t`: `KeyError` if the key is absent. -/
def BatchOut.appendOutput (bo : BatchOut) (t : ChwTensor) :
    Except PreError BatchOut :=
  match bo.output with
  | none => .error (.keyError "output")
  | some l => .ok { bo with output := some (l ++ [t]) }

/-- `batch_out['image'].append r`: `KeyError` if the key is absent. -/
def BatchOut.appendImage (bo : BatchOut) (r : PixArray) :
    Except PreError BatchOut :=
  match bo.image with
  | none => .error (.keyError "image")
  | some l => .ok { bo with image := some (l ++ [r]) }

/-- `batch_out['scale'].append s`: `KeyError` if the key is absent. -/
def BatchOut.appendScale (bo : BatchOut) (s : ℚ × ℚ) :
    Except PreError BatchOut :=
  match bo.scale with
  | none => .error (.keyError "scale")
  | some l => .ok { bo with scale := some (l ++ [s]) }

/-- One iteration of `for img in batch_in`: decode, append the scale pair,
resize/normalize, append the resized image, append the tensor — in source
order. -/
def loopBody (env : PILEnv) (bo : BatchOut) (buf : Nat) :
    Except PreError BatchOut :=
  match env.decode buf with
  | none => .error .decodeError
  | some a => do
    let bo₁ ← bo.appendScale (scaleOf a)
    let rt ← processDecoded env a
    let bo₂ ← bo₁.appendImage rt.1
    bo₂.appendOutput rt.2

/-- The whole `for img in batch_in` loop: a raised error aborts it. -/
def processLoop (env : PILEnv) (bo : BatchOut) : List Nat → Except PreError BatchOut
  | [] => .ok bo
  | buf :: rest => do
    let bo' ← loopBody env bo buf
    processLoop env bo' rest

/-- The input tensor of a request: its numpy dtype kind and its rows (each
row holds one encoded-image buffer, given by id). -/
structure InTensor where
  dtypeIsObject : Bool
  batch : List Nat

/-- An inference request as `execute` sees it: the result of
`get_input_tensor_by_name(request, 'input')` and the requested output
names. -/
structure Request where
  requestId : String
  input : Option InTensor
  requestedOutputs : List String

/-- The payload of one produced output tensor. -/
inductive OutValue where
  | tensors (l : List ChwTensor)
  | images (l : List PixArray)
  | scales (l : List (ℚ × ℚ))

/-- One `Tensor(name, np.asarray(out, dtype))` of the response. -/
structure OutTensor where
  name : String
  value : OutValue

/-- An `InferenceResponse`: the list of produced output tensors. -/
structure Response where
  tensors : List OutTensor

/-- The dict comprehension building `batch_out`: keys filtered by the
requested output names. -/
def initBatchOut (requested : List String) : BatchOut :=
  { output := if "output" ∈ requested then some [] else none
    image := if "image" ∈ requested then some [] else none
    scale := if "scale" ∈ requested then some [] else none }

/-- `output_tensors = [Tensor(...) for k, out in batch_out.items()]`, in the
dict's insertion order `output`, `image`, `scale`. -/
def buildResponse (bo : BatchOut) : Response :=
  ⟨(bo.output.map (fun l => OutTensor.mk "output" (.tensors l))).toList ++
   (bo.image.map (fun l => OutTensor.mk "image" (.images l))).toList ++
   (bo.scale.map (fun l => OutTensor.mk "scale" (.scales l))).toList⟩

/-- The body of `execute` for one request: input lookup, requested-output
check, dtype check, the per-image loop, and the response. -/
def executeOne (env : PILEnv) (req : Request) : Except PreError Response :=
  match req.input with
  | none => .error (.missingInput req.requestId)
  | some t =>
    if "output" ∉ req.requestedOutputs then .error .missingOutput
    else if t.dtypeIsObject = false then .error .invalidInputType
    else (processLoop env (initBatchOut req.requestedOutputs) t.batch).bind
      (fun bo => .ok (buildResponse bo))

/-- `TritonPythonModel.execute`: process the requests in order, collecting
one response per request; a raised error aborts the whole call and no
response list is returned. -/
def execute (env : PILEnv) : List Request → Except PreError (List Response)
  | [] => .ok []
  | req :: rest => do
    let r ← executeOne env req
    let rs ← execute env rest
    .ok (r :: rs)

/-- Specification-side restatement of the per-batch processing: the triple
(scale pair, resized image, tensor) for each image, in order. -/
def processedBatch (env : PILEnv) :
    List Nat → Except PreError (List ((ℚ × ℚ) × PixArray × ChwTensor))
  | [] => .ok []
  | buf :: rest =>
    match env.decode buf with
    | none => .error .decodeError
    | some a =>
      match processDecoded env a with
      | .error e => .error e
      | .ok rt => (processedBatch env rest).map (fun ps => (scaleOf a, rt) :: ps)

/-! ### Concrete fixtures used by witnesses and counterexamples -/

/-- A 3840×4480 RGB (3-channel) decoded image with constant pixels. -/
def rgbImg : PixArray := ⟨3840, 4480, some 3, fun _ _ _ => 10⟩

/-- A 3840×4480 RGBA (4-channel) decoded image with constant pixels. -/
def rgbaImg : PixArray := ⟨3840, 4480, some 4, fun _ _ _ => 10⟩

/-- A 3840×4480 grayscale (2-D) decoded image with constant pixels. -/
def grayImg : PixArray := ⟨3840, 4480, none, fun _ _ _ => 7⟩

/-- PIL environment in which every buffer decodes to `rgbImg`. -/
def rgbEnv : PILEnv := ⟨fun _ => some rgbImg, fun _ _ _ _ => 10⟩

/-- PIL environment in which every buffer decodes to `rgbaImg`. -/
def rgbaEnv : PILEnv := ⟨fun _ => some rgbaImg, fun _ _ _ _ => 10⟩

/-- PIL environment in which every buffer decodes to `grayImg`. -/
def grayEnv : PILEnv := ⟨fun _ => some grayImg, fun _ _ _ _ => 7⟩

/-- PIL environment in which buffer 1 fails to decode and every other buffer
decodes to `rgbImg`. -/
def badOneEnv : PILEnv :=
  ⟨fun b => if b = 1 then none else some rgbImg, fun _ _ _ _ => 10⟩

/-- A request with one image and all three outputs requested. -/
def allOutputsReq : Request :=
  ⟨"r0", some ⟨true, [0]⟩, ["output", "image", "scale"]⟩

/-- A request with one image that requests only the `output` output. -/
def onlyOutputReq : Request := ⟨"r1", some ⟨true, [0]⟩, ["output"]⟩

/-- A request with two images and all three outputs requested. -/
def twoImgReq : Request :=
  ⟨"r2", some ⟨true, [0, 5]⟩, ["output", "image", "scale"]⟩

/-- A request with an empty batch requesting `output` and `scale`. -/
def emptyBatchReq : Request := ⟨"r3", some ⟨true, []⟩, ["output", "scale"]⟩

/-- A request with three images of which the middle one fails to decode
(under `badOneEnv`), all three outputs requested. -/
def badMiddleReq : Request :=
  ⟨"r4", some ⟨true, [0, 1, 2]⟩, ["output", "image", "scale"]⟩

/-- A request whose requested outputs do not include `output`. -/
def noOutputReq : Request := ⟨"r5", some ⟨true, [0]⟩, ["image", "scale"]⟩

/-- A request whose input tensor has a numeric (non-object) dtype. -/
def numericReq : Request :=
  ⟨"r6", some ⟨false, [0]⟩, ["output", "image", "scale"]⟩

/-! ### Computation lemmas for the per-image pipeline -/

/-- On a 3-channel decoded image, the pipeline resizes and then normalizes
channelwise and transposes to C×H×W. -/
lemma processDecoded_color (env : PILEnv) (a : PixArray)
    (h : a.channels = some 3) :
    processDecoded env a = .ok (resizeTo env a,
      ⟨3, 1920, 2240, fun c y x =>
        ((resizeTo env a).pix y x c - meanConst c * 255) /
          (varianceConst c * 255)⟩) := by
  obtain ⟨ah, aw, ac, ap⟩ := a
  simp only [PixArray.channels] at h
  subst h
  rfl

/-- On a 2-D (grayscale) decoded image, the pipeline resizes, expands to
three equal channels, then normalizes channelwise and transposes. -/
lemma processDecoded_gray (env : PILEnv) (a : PixArray)
    (h : a.channels = none) :
    processDecoded env a = .ok (gray2bgr (resizeTo env a),
      ⟨3, 1920, 2240, fun c y x =>
        ((resizeTo env a).pix y x 0 - meanConst c * 255) /
          (varianceConst c * 255)⟩) := by
  obtain ⟨ah, aw, ac, ap⟩ := a
  simp only [PixArray.channels] at h
  subst h
  rfl

/-- On a 3-D decoded image whose channel count is not 3, normalization's
in-place broadcast fails and the pipeline raises. -/
lemma processDecoded_badChannels (env : PILEnv) (a : PixArray) (c : Nat)
    (h : a.channels = some c) (hc : c ≠ 3) :
    processDecoded env a = .error .broadcastError := by
  obtain ⟨ah, aw, ac, ap⟩ := a
  simp only [PixArray.channels] at h
  subst h
  simp only [processDecoded, resizeTo, PixArray.ndim, Option.isSome_some,
    if_pos, if_true, normalizeMeanVariance]
  match c, hc with
  | 0, _ => rfl
  | 1, _ => rfl
  | 2, _ => rfl
  | n + 4, _ => rfl
  | 3, hc => exact absurd rfl hc

/-- Every image accepted by the pipeline (3-channel or 2-D) is processed
successfully. -/
lemma processDecoded_ok (env : PILEnv) (a : PixArray)
    (h : a.channels = some 3 ∨ a.channels = none) :
    ∃ rt, processDecoded env a = .ok rt := by
  rcases h with h | h
  · exact ⟨_, processDecoded_color env a h⟩
  · exact ⟨_, processDecoded_gray env a h⟩

/-! ### Lemmas about the batch loop -/

lemma processLoop_append (env : PILEnv) (bo : BatchOut) (l₁ l₂ : List Nat) :
    processLoop env bo (l₁ ++ l₂) =
      (processLoop env bo l₁).bind (fun bo' => processLoop env bo' l₂) := by
  induction l₁ generalizing bo with
  | nil => simp [processLoop, Except.bind]
  | cons b bs ih =>
    simp only [List.cons_append, processLoop, bind, Except.bind]
    cases loopBody env bo b with
    | error e => rfl
    | ok bo' => exact ih bo'

/-- Running the loop from an accumulator with all three keys present
computes `processedBatch` and appends its projections to each key. -/
lemma processLoop_allSome (env : PILEnv) (bufs : List Nat)
    (lo : List ChwTensor) (li : List PixArray) (ls : List (ℚ × ℚ)) :
    processLoop env ⟨some lo, some li, some ls⟩ bufs =
      (processedBatch env bufs).map (fun ps =>
        (⟨some (lo ++ ps.map fun p => p.2.2), some (li ++ ps.map fun p => p.2.1),
          some (ls ++ ps.map fun p => p.1)⟩ : BatchOut)) := by
  induction bufs generalizing lo li ls with
  | nil => simp [processLoop, processedBatch, Except.map]
  | cons b bs ih =>
    cases hd : env.decode b with
    | none =>
      simp [processLoop, loopBody, processedBatch, hd, Except.map, bind,
        Except.bind]
    | some a =>
      cases hp : processDecoded env a with
      | error e =>
        simp [processLoop, loopBody, processedBatch, hd, hp, Except.map, bind,
          Except.bind, BatchOut.appendScale]
      | ok rt =>
        simp only [processLoop, loopBody, hd, hp, processedBatch, bind,
          Except.bind, BatchOut.appendScale, BatchOut.appendImage,
          BatchOut.appendOutput]
        rw [ih]
        cases hps : processedBatch env bs with
        | error e => rfl
        | ok ps => simp [Except.map]

/-- When every buffer decodes to an accepted image, `processedBatch`
succeeds, preserves length, and its `i`-th entry is the processed form of
the `i`-th buffer. -/
lemma processedBatch_ok (env : PILEnv) (bufs : List Nat)
    (h : ∀ b ∈ bufs, ∃ a, env.decode b = some a ∧
      (a.channels = some 3 ∨ a.channels = none)) :
    ∃ ps, processedBatch env bufs = .ok ps ∧ ps.length = bufs.length ∧
      ∀ i, i < bufs.length → ∃ a, env.decode (bufs.getD i 0) = some a ∧
        ∃ rt, processDecoded env a = .ok rt ∧
          ps.getD i default = (scaleOf a, rt) := by
  induction bufs with
  | nil =>
    exact ⟨[], rfl, rfl, fun i hi => absurd hi (by simp)⟩
  | cons b bs ih =>
    obtain ⟨a, hd, hc⟩ := h b (List.mem_cons_self b bs)
    obtain ⟨rt, hrt⟩ := processDecoded_ok env a hc
    obtain ⟨ps, hps, hlen, hget⟩ := ih (fun b' hb' => h b' (List.mem_cons_of_mem _ hb'))
    refine ⟨(scaleOf a, rt) :: ps, ?_, by simp [hlen], ?_⟩
    · simp [processedBatch, hd, hrt, hps, Except.map]
    · intro i hi
      cases i with
      | zero => exact ⟨a, hd, rt, hrt, rfl⟩
      | succ j =>
        simpa using hget j (by simpa using hi)

/-- When the input tensor is present, `output` is requested and the dtype is
the object dtype, `executeOne` runs the per-image loop and wraps its result
in a response. -/
lemma executeOne_run (env : PILEnv) (req : Request) (t : InTensor)
    (hin : req.input = some t) (hout : "output" ∈ req.requestedOutputs)
    (hdt : t.dtypeIsObject = true) :
    executeOne env req =
      (processLoop env (initBatchOut req.requestedOutputs) t.batch).bind
        (fun bo => .ok (buildResponse bo)) := by
  obtain ⟨rid, inp, ro⟩ := req
  simp only [Request.input] at hin
  subst hin
  simp only [Request.requestedOutputs] at hout ⊢
  simp [executeOne, hout, hdt]

/-- With all three output names requested, every key of `batch_out` is
present and empty. -/
lemma initBatchOut_all (ro : List String) (h1 : "output" ∈ ro)
    (h2 : "image" ∈ ro) (h3 : "scale" ∈ ro) :
    initBatchOut ro = ⟨some [], some [], some []⟩ := by
  simp [initBatchOut, h1, h2, h3]

/-! ### Claim theorems -/

/-- C8: a request that names the input tensor but whose requested-output set
does not include `output` fails with the missing-output error, for every PIL
environment — in particular no image is decoded or processed. -/
theorem missing_output_error (env : PILEnv) (req : Request) (t : InTensor)
    (hin : req.input = some t) (hout : "output" ∉ req.requestedOutputs) :
    executeOne env req = .error .missingOutput := by
  obtain ⟨rid, inp, ro⟩ := req
  simp only [Request.input] at hin
  subst hin
  simp only [Request.requestedOutputs] at hout
  simp [executeOne, hout]

/-- Witness for C8 at a concrete request. -/
theorem missing_output_error_witness :
    executeOne rgbEnv noOutputReq = .error .missingOutput :=
  missing_output_error rgbEnv noOutputReq ⟨true, [0]⟩ rfl (by decide)

/-- C9: a request whose input tensor has a non-object (numeric) dtype fails
with the invalid-input-type error, for every PIL environment — in particular
the per-image loop never runs. -/
theorem invalid_input_type_error (env : PILEnv) (req : Request) (t : InTensor)
    (hin : req.input = some t) (hout : "output" ∈ req.requestedOutputs)
    (hdt : t.dtypeIsObject = false) :
    executeOne env req = .error .invalidInputType := by
  obtain ⟨rid, inp, ro⟩ := req
  simp only [Request.input] at hin
  subst hin
  simp only [Request.requestedOutputs] at hout
  simp [executeOne, hout, hdt]

/-- Witness for C9 at a concrete request. -/
theorem invalid_input_type_error_witness :
    executeOne rgbEnv numericReq = .error .invalidInputType :=
  invalid_input_type_error rgbEnv numericReq ⟨false, [0]⟩ rfl (by decide) rfl

/-- C10: a request with an empty batch that satisfies all preconditions
succeeds, and every requested output sequence in its response is empty. -/
theorem empty_batch_ok (env : PILEnv) (req : Request) (t : InTensor)
    (hin : req.input = some t) (hdt : t.dtypeIsObject = true)
    (hout : "output" ∈ req.requestedOutputs) (hb : t.batch = []) :
    executeOne env req = .ok ⟨[⟨"output", .tensors []⟩] ++
      (if "image" ∈ req.requestedOutputs then [⟨"image", .images []⟩] else []) ++
      (if "scale" ∈ req.requestedOutputs then [⟨"scale", .scales []⟩] else [])⟩ := by
  rw [executeOne_run env req t hin hout hdt, hb]
  by_cases hI : "image" ∈ req.requestedOutputs <;>
    by_cases hS : "scale" ∈ req.requestedOutputs <;>
    simp [processLoop, Except.bind, bind, buildResponse, initBatchOut, hout,
      hI, hS]

/-- Witness for C10 at a concrete request asking for `output` and `scale`. -/
theorem empty_batch_ok_witness :
    executeOne rgbEnv emptyBatchReq =
      .ok ⟨[⟨"output", .tensors []⟩, ⟨"scale", .scales []⟩]⟩ := by
  have h := empty_batch_ok rgbEnv emptyBatchReq ⟨true, []⟩ rfl rfl (by decide)
    rfl
  rw [if_neg (by decide), if_pos (by decide)] at h
  simpa using h

/-- C2 (the code as it stands): a valid one-image request asking only for
the `output` output aborts with `KeyError('scale')` — the loop appends the
scale pair unconditionally although the `batch_out` dict holds only the
requested keys. -/
theorem executeOne_onlyOutput_keyError :
    executeOne rgbEnv onlyOutputReq = .error (.keyError "scale") := rfl

/-- C3 counterexample: a decodable 4-channel (RGBA) image aborts the request
with a broadcast error during normalization, so no normalized tensor (of any
shape) is produced for it. -/
theorem executeOne_rgba_aborts :
    executeOne rgbaEnv allOutputsReq = .error .broadcastError := rfl

/-- C3 (amended): an accepted 2-D or 3-channel decoded image always yields a
normalized tensor of shape (3, 1920, 2240); a 3-D decoded image with any
other channel count instead aborts with a broadcast error. -/
theorem processDecoded_tensor_shape (env : PILEnv) (a : PixArray) :
    (a.channels = some 3 ∨ a.channels = none →
      ∃ r tn, processDecoded env a = .ok (r, tn) ∧
        tn.c = 3 ∧ tn.h = 1920 ∧ tn.w = 2240) ∧
    (∀ c, a.channels = some c → c ≠ 3 →
      processDecoded env a = .error .broadcastError) := by
  constructor
  · rintro (h | h)
    · exact ⟨_, _, processDecoded_color env a h, rfl, rfl, rfl⟩
    · exact ⟨_, _, processDecoded_gray env a h, rfl, rfl, rfl⟩
  · exact fun c hc hne => processDecoded_badChannels env a c hc hne

/-- Witness for the amended C3: a 3-channel image gets a (3, 1920, 2240)
tensor and a 4-channel image aborts. -/
theorem processDecoded_tensor_shape_witness :
    (∃ r tn, processDecoded rgbEnv rgbImg = .ok (r, tn) ∧
      tn.c = 3 ∧ tn.h = 1920 ∧ tn.w = 2240) ∧
    processDecoded rgbaEnv rgbaImg = .error .broadcastError :=
  ⟨(processDecoded_tensor_shape rgbEnv rgbImg).1 (Or.inl rfl),
   (processDecoded_tensor_shape rgbaEnv rgbaImg).2 4 rfl (by decide)⟩

/-- C1: for a request whose batch of N images all decode to accepted
(3-channel or 2-D) arrays and which asks for all three outputs, the three
output sequences each have length N, and the i-th element of each is the
processed form of the i-th input image. -/
theorem execute_batch_correspondence (env : PILEnv) (req : Request)
    (t : InTensor) (hin : req.input = some t) (hdt : t.dtypeIsObject = true)
    (h1 : "output" ∈ req.requestedOutputs)
    (h2 : "image" ∈ req.requestedOutputs)
    (h3 : "scale" ∈ req.requestedOutputs)
    (hdec : ∀ b ∈ t.batch, ∃ a, env.decode b = some a ∧
      (a.channels = some 3 ∨ a.channels = none)) :
    ∃ ps, processedBatch env t.batch = .ok ps ∧
      executeOne env req = .ok ⟨[⟨"output", .tensors (ps.map fun p => p.2.2)⟩,
        ⟨"image", .images (ps.map fun p => p.2.1)⟩,
        ⟨"scale", .scales (ps.map fun p => p.1)⟩]⟩ ∧
      (ps.map fun p => p.2.2).length = t.batch.length ∧
      (ps.map fun p => p.2.1).length = t.batch.length ∧
      (ps.map fun p => p.1).length = t.batch.length ∧
      ∀ i, i < t.batch.length →
        ∃ a, env.decode (t.batch.getD i 0) = some a ∧
          ∃ rt, processDecoded env a = .ok rt ∧
            ps.getD i default = (scaleOf a, rt) := by
  obtain ⟨ps, hps, hlen, hget⟩ := processedBatch_ok env t.batch hdec
  refine ⟨ps, hps, ?_, by simp [hlen], by simp [hlen], by simp [hlen], hget⟩
  rw [executeOne_run env req t hin h1 hdt, initBatchOut_all _ h1 h2 h3,
    processLoop_allSome, hps]
  simp [Except.map, Except.bind, bind, buildResponse]

/-- Witness for C1: a concrete two-image batch. -/
theorem execute_batch_correspondence_witness :
    (∀ b ∈ [0, 5], ∃ a, rgbEnv.decode b = some a ∧
      (a.channels = some 3 ∨ a.channels = none)) ∧
    (∃ ps, processedBatch rgbEnv [0, 5] = .ok ps ∧
      executeOne rgbEnv twoImgReq =
        .ok ⟨[⟨"output", .tensors (ps.map fun p => p.2.2)⟩,
          ⟨"image", .images (ps.map fun p => p.2.1)⟩,
          ⟨"scale", .scales (ps.map fun p => p.1)⟩]⟩ ∧
      (ps.map fun p => p.2.2).length = 2 ∧
      (ps.map fun p => p.2.1).length = 2 ∧
      (ps.map fun p => p.1).length = 2 ∧
      ∀ i, i < 2 →
        ∃ a, rgbEnv.decode ([0, 5].getD i 0) = some a ∧
          ∃ rt, processDecoded rgbEnv a = .ok rt ∧
            ps.getD i default = (scaleOf a, rt)) :=
  ⟨fun b _ => ⟨rgbImg, rfl, Or.inl rfl⟩,
   execute_batch_correspondence rgbEnv twoImgReq ⟨true, [0, 5]⟩ rfl rfl
     (by decide) (by decide) (by decide)
     (fun b _ => ⟨rgbImg, rfl, Or.inl rfl⟩)⟩

/-- C4: in a successful one-image run the scale pair emitted for a decoded
image of original width W and height H is (W/2240, H/1920). -/
theorem executeOne_scalePair (env : PILEnv) (req : Request) (t : InTensor)
    (b : Nat) (a : PixArray) (hin : req.input = some t)
    (hdt : t.dtypeIsObject = true) (h1 : "output" ∈ req.requestedOutputs)
    (h2 : "image" ∈ req.requestedOutputs)
    (h3 : "scale" ∈ req.requestedOutputs) (hb : t.batch = [b])
    (hd : env.decode b = some a)
    (hc : a.channels = some 3 ∨ a.channels = none) :
    ∃ tn r, executeOne env req = .ok ⟨[⟨"output", .tensors [tn]⟩,
      ⟨"image", .images [r]⟩,
      ⟨"scale", .scales [((a.w : ℚ) / 2240, (a.h : ℚ) / 1920)]⟩]⟩ := by
  obtain ⟨rt, hrt⟩ := processDecoded_ok env a hc
  refine ⟨rt.2, rt.1, ?_⟩
  rw [executeOne_run env req t hin h1 hdt, initBatchOut_all _ h1 h2 h3, hb,
    processLoop_allSome]
  simp [processedBatch, hd, hrt, Except.map, Except.bind, bind,
    buildResponse, scaleOf]

/-- Witness for C4: an image of original size 4480×3840 yields the scale
pair (2, 2). -/
theorem executeOne_scalePair_witness :
    ∃ tn r, executeOne rgbEnv allOutputsReq =
      .ok ⟨[⟨"output", .tensors [tn]⟩, ⟨"image", .images [r]⟩,
        ⟨"scale", .scales [((2 : ℚ), (2 : ℚ))]⟩]⟩ := by
  have h := executeOne_scalePair rgbEnv allOutputsReq ⟨true, [0]⟩ 0 rgbImg
    rfl rfl (by decide) (by decide) (by decide) rfl rfl (Or.inl rfl)
  have e1 : ((rgbImg.w : ℚ) / 2240) = 2 := by norm_num [rgbImg]
  have e2 : ((rgbImg.h : ℚ) / 1920) = 2 := by norm_num [rgbImg]
  rw [e1, e2] at h
  exact h

/-- C5: on a 3-channel image the emitted tensor is the resized image with
each channel c normalized as (pixel − mean[c]·255) / (variance[c]·255),
mean = (0.485, 0.456, 0.406) and variance = (0.229, 0.224, 0.225) in RGB
order, transposed from H×W×C to C×H×W. -/
theorem normalization_formula (env : PILEnv) (a : PixArray)
    (h : a.channels = some 3) :
    ∃ tn, processDecoded env a = .ok (resizeTo env a, tn) ∧
      tn.c = 3 ∧ tn.h = 1920 ∧ tn.w = 2240 ∧
      (∀ y x, tn.val 0 y x =
        ((resizeTo env a).pix y x 0 - 0.485 * 255) / (0.229 * 255)) ∧
      (∀ y x, tn.val 1 y x =
        ((resizeTo env a).pix y x 1 - 0.456 * 255) / (0.224 * 255)) ∧
      (∀ y x, tn.val 2 y x =
        ((resizeTo env a).pix y x 2 - 0.406 * 255) / (0.225 * 255)) := by
  refine ⟨_, processDecoded_color env a h, rfl, rfl, rfl, ?_, ?_, ?_⟩ <;>
    intro y x <;> rfl

/-- Witness for C5 at a concrete 3-channel image. -/
theorem normalization_formula_witness :
    ∃ tn, processDecoded rgbEnv rgbImg = .ok (resizeTo rgbEnv rgbImg, tn) ∧
      tn.c = 3 ∧ tn.h = 1920 ∧ tn.w = 2240 ∧
      (∀ y x, tn.val 0 y x =
        ((resizeTo rgbEnv rgbImg).pix y x 0 - 0.485 * 255) / (0.229 * 255)) ∧
      (∀ y x, tn.val 1 y x =
        ((resizeTo rgbEnv rgbImg).pix y x 1 - 0.456 * 255) / (0.224 * 255)) ∧
      (∀ y x, tn.val 2 y x =
        ((resizeTo rgbEnv rgbImg).pix y x 2 - 0.406 * 255) / (0.225 * 255)) :=
  normalization_formula rgbEnv rgbImg rfl

/-- C6: a 2-D (grayscale) decoded image is emitted as a 3-channel resized
image whose channels all duplicate the single resized channel, and its
tensor is computed from that expanded 3-channel form. -/
theorem grayscale_expansion (env : PILEnv) (a : PixArray)
    (h : a.channels = none) :
    ∃ r tn, processDecoded env a = .ok (r, tn) ∧
      r.channels = some 3 ∧ r.h = 1920 ∧ r.w = 2240 ∧
      (∀ y x c, r.pix y x c = (resizeTo env a).pix y x 0) ∧
      tn.c = 3 ∧ tn.h = 1920 ∧ tn.w = 2240 ∧
      (∀ c y x, tn.val c y x =
        (r.pix y x c - meanConst c * 255) / (varianceConst c * 255)) := by
  exact ⟨_, _, processDecoded_gray env a h, rfl, rfl, rfl,
    fun y x c => rfl, rfl, rfl, rfl, fun c y x => rfl⟩

/-- Witness for C6 at a concrete grayscale image. -/
theorem grayscale_expansion_witness :
    ∃ r tn, processDecoded grayEnv grayImg = .ok (r, tn) ∧
      r.channels = some 3 ∧ r.h = 1920 ∧ r.w = 2240 ∧
      (∀ y x c, r.pix y x c = (resizeTo grayEnv grayImg).pix y x 0) ∧
      tn.c = 3 ∧ tn.h = 1920 ∧ tn.w = 2240 ∧
      (∀ c y x, tn.val c y x =
        (r.pix y x c - meanConst c * 255) / (varianceConst c * 255)) :=
  grayscale_expansion grayEnv grayImg rfl

/-- C7: an undecodable buffer at any position of the batch (all earlier
images decoding to accepted arrays) aborts the whole request with the
decode error, and the `execute` call returns no response list at all. -/
theorem decode_failure_aborts (env : PILEnv) (req : Request) (t : InTensor)
    (pre rest : List Nat) (bad : Nat) (hin : req.input = some t)
    (hdt : t.dtypeIsObject = true) (h1 : "output" ∈ req.requestedOutputs)
    (h2 : "image" ∈ req.requestedOutputs)
    (h3 : "scale" ∈ req.requestedOutputs)
    (hb : t.batch = pre ++ bad :: rest)
    (hpre : ∀ b ∈ pre, ∃ a, env.decode b = some a ∧
      (a.channels = some 3 ∨ a.channels = none))
    (hbad : env.decode bad = none) :
    executeOne env req = .error .decodeError ∧
      execute env [req] = .error .decodeError := by
  have hone : executeOne env req = .error .decodeError := by
    rw [executeOne_run env req t hin h1 hdt, initBatchOut_all _ h1 h2 h3, hb,
      processLoop_append, processLoop_allSome]
    obtain ⟨ps, hps, -, -⟩ := processedBatch_ok env pre hpre
    rw [hps]
    simp [Except.map, Except.bind, bind, processLoop, loopBody, hbad]
  exact ⟨hone, by simp [execute, hone, bind, Except.bind]⟩

/-- Witness for C7: a three-image batch whose middle image fails to
decode. -/
theorem decode_failure_aborts_witness :
    executeOne badOneEnv badMiddleReq = .error .decodeError ∧
      execute badOneEnv [badMiddleReq] = .error .decodeError :=
  decode_failure_aborts badOneEnv badMiddleReq ⟨true, [0, 1, 2]⟩ [0] [2] 1
    rfl rfl (by decide) (by decide) (by decide) rfl
    (fun b hb => ⟨rgbImg, by
      have : b = 0 := by simpa using hb
      subst this
      rfl, Or.inl rfl⟩)
    rfl

end EasyOCRPre
